import Mathlib

/-
Verification of the CTI data-labeling app core (src/app.py): the cursor
state machine, the relevance-judgment accumulation and the load/render
cycle, shallowly embedded in Lean. Indices are natural numbers, the
Supabase row reads are modelled as lists of (possibly partial) rows, and
the Python dict keyed by user id is modelled as an association list.
-/

/-- The `State` dataclass of app.py (lines 13-17): the persisted cursor.
`report_id` and `user_id` are the traversal indices (misleadingly named in
the source), `show_tutorial` the onboarding flag. -/
structure State where
  report_id : Nat
  user_id : Nat
  show_tutorial : Bool
deriving DecidableEq, Repr

/-- `DEFAULT_STATE` of app.py line 29. -/
def DEFAULT_STATE : State := { report_id := 0, user_id := 0, show_tutorial := true }

/-- The cursor-advance logic of app.py lines 377-380, written there inline in
`main` after a button click: `state.user_id += 1; if state.user_id >=
total_users: state.user_id = 0; state.report_id += 1`. -/
def advance (s : State) (total_users : Nat) : State :=
  let u := s.user_id + 1
  if u ≥ total_users then
    { s with user_id := 0, report_id := s.report_id + 1 }
  else
    { s with user_id := u }

/-- The tutorial-exit logic of app.py lines 291-292: `state.show_tutorial =
False; state.report_id = 10`. -/
def begin_tutorial_exit (s : State) : State :=
  { s with show_tutorial := false, report_id := 10 }

/-- The cursor invariant stated by the spec's data model: `report_index ≤
total_reports` and, while not complete, `user_index < total_users`.
(Lower bounds are implicit in the Nat representation.) -/
def cursorInv (total_reports total_users : Nat) (s : State) : Prop :=
  s.report_id ≤ total_reports ∧ (s.report_id < total_reports → s.user_id < total_users)

instance (tr tu : Nat) (s : State) : Decidable (cursorInv tr tu s) := by
  unfold cursorInv; infer_instance

/-- The progress fraction handed to `st.progress` in app.py lines 315-317:
`(state.report_id * total_users + state.user_id) / (total_reports *
total_users)`, embedded over the exact rationals. -/
def progressFraction (total_reports total_users report_id user_id : Nat) : ℚ :=
  (report_id * total_users + user_id) / (total_reports * total_users)

/-- A row of the `state` table as `load_state` (app.py lines 45-67) sees it:
each field may be absent, since the code reads them with
`state_data.get(field, default)`. -/
structure StateRow where
  report_id : Option Nat
  user_id : Option Nat
  show_tutorial : Option Bool

/-- `load_state` of app.py lines 45-67, over the list of rows the backing
store returns for the fixed id: an empty response raises (`RuntimeError`,
the spec's `StateMissing`); otherwise the first row's fields are read with
per-field defaults 0, 0, `True`. -/
def load_state (rows : List StateRow) : Except String State :=
  match rows with
  | [] => Except.error "State row not found"
  | row :: _ =>
    Except.ok
      { report_id := row.report_id.getD 0
        user_id := row.user_id.getD 0
        show_tutorial := row.show_tutorial.getD true }

/-- A user record (app.py `users` table): identity is `user_id`; `name` and
further profile fields are presentation-only. -/
structure User where
  user_id : Nat
  name : String
deriving DecidableEq, Repr

/-- A report record (app.py `reports` table). -/
structure Report where
  id : Nat
  title : String
  creation_date : String
  description : String
deriving DecidableEq, Repr

/-- The annotation mapping (Python `dict[int, Annotation]`, keys are user
ids, values the `relevant_reports` lists), embedded as an association list
with unique keys and first-match lookup. -/
abbrev AnnMap := List (Nat × List Nat)

/-- Lookup `m[uid]` in the annotation mapping (first matching key). -/
def lookupAnn (m : AnnMap) (uid : Nat) : Option (List Nat) :=
  match m with
  | [] => none
  | (k, v) :: rest => if k = uid then some v else lookupAnn rest uid

/-- Replace the value at key `uid` (first occurrence), the embedding of the
dict item assignment `m[uid] = ...`. -/
def updateAnn (m : AnnMap) (uid : Nat) (l : List Nat) : AnnMap :=
  match m with
  | [] => []
  | (k, v) :: rest => if k = uid then (k, l) :: rest else (k, v) :: updateAnn rest uid l

/-- The list update inside `save_annotation` (app.py lines 130-135): if
`report_id not in` the list, append it and pass the list through
`list(set(...))`; Python's set produces the distinct elements in an
unspecified order, embedded here as `List.dedup`. -/
def markRelevantList (l : List Nat) (rid : Nat) : List Nat :=
  if rid ∈ l then l else (l ++ [rid]).dedup

/-- The pure map update performed by `save_annotation` (app.py lines
128-135), the spec's `mark_relevant`: `annotations[user_id]` raises
`KeyError` (modelled as `none`) when `user_id` is not a key; otherwise that
user's `relevant_reports` list is updated in place. -/
def mark_relevant (m : AnnMap) (uid rid : Nat) : Option AnnMap :=
  match lookupAnn m uid with
  | none => none
  | some l => some (updateAnn m uid (markRelevantList l rid))

/-- A row of the `annotations` table as `load_annotations` (app.py lines
103-125) sees it: the `data` field may be absent (`row.get("data", {})`). -/
structure AnnRow where
  data : Option AnnMap

/-- `load_annotations` of app.py lines 103-125, over the rows returned for
the fixed id: an empty response raises; a present row whose map is empty
(or whose `data` field is missing) is replaced by the scaffold with one
empty `relevant_reports` list per known user; a non-empty map is returned
as stored. -/
def load_ann_map (rows : List AnnRow) (users : List User) : Except String AnnMap :=
  match rows with
  | [] => Except.error "Annotation data row not found"
  | row :: _ =>
    let m := row.data.getD []
    if m.isEmpty then Except.ok (users.map fun u => (u.user_id, ([] : List Nat)))
    else Except.ok m

/-- What one render cycle of `main` (app.py lines 242-384) does with the
cursor, after login and data loading: the code first evaluates
`reports[state.report_id]` (line 253) and `users[state.user_id]`
(line 255), then branches on `show_tutorial` (line 258) and on the
completion test `state.report_id >= total_reports` (line 302). -/
inductive RenderOutcome where
  | indexError : RenderOutcome
  | tutorial : RenderOutcome
  | complete : RenderOutcome
  | annotating : Report → User → RenderOutcome
deriving DecidableEq, Repr

/-- Whether a render outcome is the completion screen. -/
def isComplete : RenderOutcome → Bool
  | RenderOutcome.complete => true
  | _ => false

/-- The render cycle of `main`, in the source's evaluation order: index into
`reports` and `users` first (an out-of-range index raises `IndexError`),
then the tutorial branch, then the completion check. -/
def renderCycle (reports : List Report) (users : List User) (s : State) : RenderOutcome :=
  match reports[s.report_id]? with
  | none => RenderOutcome.indexError
  | some r =>
    match users[s.user_id]? with
    | none => RenderOutcome.indexError
    | some u =>
      if s.show_tutorial then RenderOutcome.tutorial
      else if s.report_id ≥ reports.length then RenderOutcome.complete
      else RenderOutcome.annotating r u

/-- The post-click logic of app.py lines 370-384: on "relevant" the current
user's annotation list gains the current report's `id` (via
`save_annotation`); on "not relevant" the map is untouched; either way the
cursor advances. `none` models the run raising (index or key error). -/
def clickAction (is_relevant : Bool) (reports : List Report) (users : List User)
    (ann : AnnMap) (s : State) : Option (AnnMap × State) :=
  match reports[s.report_id]?, users[s.user_id]? with
  | some r, some u =>
    if is_relevant then
      match mark_relevant ann u.user_id r.id with
      | none => none
      | some ann2 => some (ann2, advance s users.length)
    else
      some (ann, advance s users.length)
  | _, _ => none

/-- C3: `advance` is a pure function of the cursor and `total_users`: below
the last user it increments `user_id` by one keeping `report_id`; at the
last user it wraps `user_id` to 0 and increments `report_id`; in both cases
`show_tutorial` is untouched. -/
theorem advance_spec (s : State) (tu : Nat) :
    (s.user_id < tu - 1 → advance s tu = { s with user_id := s.user_id + 1 }) ∧
    (s.user_id = tu - 1 →
      advance s tu =
        { report_id := s.report_id + 1, user_id := 0, show_tutorial := s.show_tutorial }) := by
  constructor
  · intro h
    have : ¬ (s.user_id + 1 ≥ tu) := by omega
    simp [advance, this]
  · intro h
    have : s.user_id + 1 ≥ tu := by omega
    simp [advance, this]

/-- Witness for `advance_spec`: with 3 users, advancing from user 1 steps to
user 2 on the same report, and advancing from user 2 wraps to user 0 of the
next report. -/
theorem advance_spec_witness :
    advance { report_id := 4, user_id := 1, show_tutorial := false } 3 =
      { report_id := 4, user_id := 2, show_tutorial := false } ∧
    advance { report_id := 4, user_id := 2, show_tutorial := false } 3 =
      { report_id := 5, user_id := 0, show_tutorial := false } :=
  ⟨(advance_spec { report_id := 4, user_id := 1, show_tutorial := false } 3).1 (by decide),
   (advance_spec { report_id := 4, user_id := 2, show_tutorial := false } 3).2 (by decide)⟩

/-- C2 as frozen is false on the code: with one report and one user, the
default cursor satisfies the invariant but `begin_tutorial_exit` jumps
`report_id` to 10 > 1, breaking `report_id ≤ total_reports`. -/
theorem begin_tutorial_exit_breaks_invariant :
    cursorInv 1 1 { report_id := 0, user_id := 0, show_tutorial := true } ∧
    ¬ cursorInv 1 1
      (begin_tutorial_exit { report_id := 0, user_id := 0, show_tutorial := true }) := by
  decide

/-- C2 (amended): under the invariant, `advance` (applied while
`report_id < total_reports`) preserves it for any sizes ≥ 1, and
`begin_tutorial_exit` preserves it provided `total_reports ≥ 10` and the
input cursor's `user_id < total_users`. -/
theorem cursor_ops_preserve_invariant (tr tu : Nat) (s : State)
    (htr : 1 ≤ tr) (htu : 1 ≤ tu) (hinv : cursorInv tr tu s) :
    (s.report_id < tr → cursorInv tr tu (advance s tu)) ∧
    (10 ≤ tr → s.user_id < tu → cursorInv tr tu (begin_tutorial_exit s)) := by
  obtain ⟨hle, hlt⟩ := hinv
  constructor
  · intro hrep
    unfold advance cursorInv
    by_cases h : s.user_id + 1 ≥ tu
    · simp only [h, if_pos]
      exact ⟨by omega, fun _ => htu⟩
    · simp only [h, if_neg, not_false_iff]
      have := hlt hrep
      exact ⟨by omega, fun _ => by omega⟩
  · intro h10 husr
    exact ⟨by simpa [begin_tutorial_exit] using h10, fun _ => by simpa [begin_tutorial_exit] using husr⟩

/-- Witness for `cursor_ops_preserve_invariant`: ten reports and two users,
cursor at (3, 0, false). -/
theorem cursor_ops_preserve_invariant_witness :
    cursorInv 10 2 (advance { report_id := 3, user_id := 0, show_tutorial := false } 2) ∧
    cursorInv 10 2
      (begin_tutorial_exit { report_id := 3, user_id := 0, show_tutorial := false }) :=
  ⟨(cursor_ops_preserve_invariant 10 2
      { report_id := 3, user_id := 0, show_tutorial := false }
      (by decide) (by decide) (by decide)).1 (by decide),
   (cursor_ops_preserve_invariant 10 2
      { report_id := 3, user_id := 0, show_tutorial := false }
      (by decide) (by decide) (by decide)).2 (by decide) (by decide)⟩

/-- C6: the progress fraction is the exact row-major linearization: for
nonzero sizes, multiplying it back by the cell count recovers
`report_id * total_users + user_id` exactly, and the concrete instance
(5 reports, 10 users, cursor (2, 3)) equals 23/50 = 0.46. -/
theorem progress_linearization (tr tu ri ui : Nat) (htr : 0 < tr) (htu : 0 < tu) :
    progressFraction tr tu ri ui * (tr * tu : ℚ) = (ri * tu + ui : ℚ) ∧
    progressFraction 5 10 2 3 = 23 / 50 ∧
    progressFraction 5 10 2 3 = 0.46 := by
  refine ⟨?_, by norm_num [progressFraction], by norm_num [progressFraction]⟩
  have h1 : (tr : ℚ) ≠ 0 := by positivity
  have h2 : (tu : ℚ) ≠ 0 := by positivity
  field_simp [progressFraction]

/-- Witness for `progress_linearization` at 5 reports, 10 users, cursor
(2, 3). -/
theorem progress_linearization_witness :
    progressFraction 5 10 2 3 * (5 * 10 : ℚ) = (2 * 10 + 3 : ℚ) :=
  (progress_linearization 5 10 2 3 (by decide) (by decide)).1

/-- C5: `begin_tutorial_exit` clears `show_tutorial`, sets `report_id` to the
fixed skip-ahead 10 and leaves `user_id` alone; in particular it maps the
default cursor (0, 0, true) to (10, 0, false). -/
theorem begin_tutorial_exit_spec :
    (∀ s : State, begin_tutorial_exit s =
      { report_id := 10, user_id := s.user_id, show_tutorial := false }) ∧
    begin_tutorial_exit { report_id := 0, user_id := 0, show_tutorial := true } =
      { report_id := 10, user_id := 0, show_tutorial := false } :=
  ⟨fun _ => rfl, rfl⟩

/-- C7: with no row for the fixed id, `load_state` fails rather than
falling back to `DEFAULT_STATE`. -/
theorem load_state_missing_row :
    load_state [] = Except.error "State row not found" := rfl

/-- C10: a present row with missing fields is silently defaulted field by
field (`report_id` to 0, `user_id` to 0, `show_tutorial` to true) and never
raises; with every field missing the result is exactly `DEFAULT_STATE`. -/
theorem load_state_partial_row_defaults (row : StateRow) (rest : List StateRow) :
    load_state (row :: rest) =
      Except.ok
        { report_id := row.report_id.getD 0
          user_id := row.user_id.getD 0
          show_tutorial := row.show_tutorial.getD true } ∧
    load_state [{ report_id := none, user_id := none, show_tutorial := none }] =
      Except.ok DEFAULT_STATE :=
  ⟨rfl, rfl⟩

theorem lookupAnn_scaffold (users : List User) (u : User) (hu : u ∈ users) :
    lookupAnn (users.map fun v => (v.user_id, ([] : List Nat))) u.user_id = some [] := by
  induction users with
  | nil => cases hu
  | cons v us ih =>
    simp only [List.map_cons, lookupAnn]
    by_cases h : v.user_id = u.user_id
    · simp [h]
    · rcases List.mem_cons.mp hu with h1 | h1
      · subst h1; exact absurd rfl h
      · simp [h, ih h1]

/-- C8: a present annotation row whose stored map is empty is replaced by
the scaffold holding one empty `relevant_reports` list per known user
(looking up any known user's id in it yields the empty list), while an
absent row makes the load fail instead of synthesizing the scaffold. -/
theorem load_ann_map_spec (users : List User) (rest : List AnnRow) :
    load_ann_map ({ data := some [] } :: rest) users =
      Except.ok (users.map fun u => (u.user_id, ([] : List Nat))) ∧
    (∀ u, u ∈ users →
      lookupAnn (users.map fun u => (u.user_id, ([] : List Nat))) u.user_id = some []) ∧
    load_ann_map [] users = Except.error "Annotation data row not found" :=
  ⟨rfl, fun u hu => lookupAnn_scaffold users u hu, rfl⟩

/-- Witness for `load_ann_map_spec` on the one-user catalog. -/
theorem load_ann_map_spec_witness :
    lookupAnn
      (([{ user_id := 5, name := "a" }] : List User).map fun v => (v.user_id, ([] : List Nat)))
      (User.mk 5 "a").user_id = some [] :=
  (load_ann_map_spec [{ user_id := 5, name := "a" }] []).2.1 { user_id := 5, name := "a" }
    (List.mem_singleton.mpr rfl)

theorem lookupAnn_updateAnn_self (m : AnnMap) (uid : Nat) (l l0 : List Nat)
    (h : lookupAnn m uid = some l0) : lookupAnn (updateAnn m uid l) uid = some l := by
  induction m with
  | nil => simp [lookupAnn] at h
  | cons p rest ih =>
    obtain ⟨k, v⟩ := p
    by_cases hk : k = uid
    · simp [lookupAnn, updateAnn, hk]
    · simp only [lookupAnn, updateAnn, hk, if_neg, not_false_iff] at h ⊢
      exact ih h

theorem updateAnn_lookup_eq (m : AnnMap) (uid : Nat) (l : List Nat)
    (h : lookupAnn m uid = some l) : updateAnn m uid l = m := by
  induction m with
  | nil => rfl
  | cons p rest ih =>
    obtain ⟨k, v⟩ := p
    by_cases hk : k = uid
    · simp only [lookupAnn, hk, if_pos] at h
      obtain rfl := Option.some.inj h
      simp [updateAnn, hk]
    · simp only [lookupAnn, hk, if_neg, not_false_iff] at h
      simp [updateAnn, hk, ih h]

theorem markRelevantList_mem (l : List Nat) (rid : Nat) : rid ∈ markRelevantList l rid := by
  unfold markRelevantList
  by_cases h : rid ∈ l
  · simpa [h]
  · simp [h, List.mem_dedup]

theorem markRelevantList_nodup (l : List Nat) (rid : Nat) (hnd : l.Nodup) :
    (markRelevantList l rid).Nodup := by
  unfold markRelevantList
  by_cases h : rid ∈ l
  · simpa [h]
  · simpa [h] using List.nodup_dedup (l ++ [rid])

theorem markRelevantList_eq_of_mem (l : List Nat) (rid : Nat) (h : rid ∈ l) :
    markRelevantList l rid = l := by
  simp [markRelevantList, h]

theorem markRelevantList_count_one (l : List Nat) (rid : Nat) (hnd : l.Nodup) :
    (markRelevantList l rid).count rid = 1 :=
  List.count_eq_one_of_mem (markRelevantList_nodup l rid hnd) (markRelevantList_mem l rid)

/-- C4: `mark_relevant` is idempotent. For a map holding a duplicate-free
list `l` for `uid`, the first call yields a map `m1`, the second call (same
arguments) returns `m1` unchanged, `rid` appears exactly once in `uid`'s
resulting list, and when `rid` was already present the first call is a
no-op on the map. -/
theorem mark_relevant_idempotent (m : AnnMap) (uid rid : Nat) (l : List Nat)
    (hl : lookupAnn m uid = some l) (hnd : l.Nodup) :
    ∃ m1, mark_relevant m uid rid = some m1 ∧
      mark_relevant m1 uid rid = some m1 ∧
      lookupAnn m1 uid = some (markRelevantList l rid) ∧
      (markRelevantList l rid).count rid = 1 ∧
      (rid ∈ l → m1 = m) := by
  refine ⟨updateAnn m uid (markRelevantList l rid), ?_, ?_, ?_, ?_, ?_⟩
  · simp [mark_relevant, hl]
  · have hlk : lookupAnn (updateAnn m uid (markRelevantList l rid)) uid =
        some (markRelevantList l rid) :=
      lookupAnn_updateAnn_self m uid (markRelevantList l rid) l hl
    have hfix : markRelevantList (markRelevantList l rid) rid = markRelevantList l rid :=
      markRelevantList_eq_of_mem _ rid (markRelevantList_mem l rid)
    simp [mark_relevant, hlk, hfix, updateAnn_lookup_eq _ uid _ hlk]
  · exact lookupAnn_updateAnn_self m uid (markRelevantList l rid) l hl
  · exact markRelevantList_count_one l rid hnd
  · intro hmem
    rw [markRelevantList_eq_of_mem l rid hmem]
    exact updateAnn_lookup_eq m uid l hl

/-- Witness for `mark_relevant_idempotent`: user 7 with an empty list,
report 42. -/
theorem mark_relevant_idempotent_witness :
    ∃ m1, mark_relevant [(7, ([] : List Nat))] 7 42 = some m1 ∧
      mark_relevant m1 7 42 = some m1 ∧
      lookupAnn m1 7 = some (markRelevantList [] 42) ∧
      (markRelevantList ([] : List Nat) 42).count 42 = 1 ∧
      (42 ∈ ([] : List Nat) → m1 = [(7, ([] : List Nat))]) :=
  mark_relevant_idempotent [(7, ([] : List Nat))] 7 42 [] rfl List.nodup_nil

/-- C1 fails on the code: at the completion boundary
(`report_id = total_reports`) the render cycle performs the out-of-range
read `reports[state.report_id]` (app.py line 253) before the completion
check (line 302), so it raises `IndexError` instead of classifying the
cursor `COMPLETE`; consequently the `COMPLETE` outcome is unreachable for
every input. -/
theorem renderCycle_boundary_index_error :
    (∀ (reports : List Report) (users : List User) (ui : Nat) (t : Bool),
      renderCycle reports users
        { report_id := reports.length, user_id := ui, show_tutorial := t } =
        RenderOutcome.indexError) ∧
    (∀ (reports : List Report) (users : List User) (s : State),
      isComplete (renderCycle reports users s) = false) ∧
    renderCycle [{ id := 0, title := "r", creation_date := "d", description := "x" }]
      [{ user_id := 0, name := "u" }]
      { report_id := 1, user_id := 0, show_tutorial := false } =
      RenderOutcome.indexError := by
  refine ⟨?_, ?_, rfl⟩
  · intro reports users ui t
    have h : reports[reports.length]? = none := List.getElem?_eq_none (le_refl _)
    simp [renderCycle, h]
  · intro reports users s
    unfold renderCycle
    cases hr : reports[s.report_id]? with
    | none => rfl
    | some r =>
      cases hu : users[s.user_id]? with
      | none => rfl
      | some u =>
        have hlt : s.report_id < reports.length := by
          by_contra hge
          rw [List.getElem?_eq_none (by omega)] at hr
          exact Option.noConfusion hr
        by_cases ht : s.show_tutorial
        · simp [ht, isComplete]
        · have hnge : ¬ (s.report_id ≥ reports.length) := by omega
          simp [ht, hnge, isComplete]

/-- C9: a "not relevant" click leaves the annotation map untouched while the
cursor still advances; concretely, from cursor (0, 0, false) with two users,
a "relevant" click adds report 0's id (100) to user 0 and moves the cursor
to (0, 1, false), and the following "not relevant" click moves the cursor
to (1, 0, false) with user 1's relevant list still empty. -/
theorem click_not_relevant_frame (reports : List Report) (users : List User)
    (ann : AnnMap) (s : State)
    (hr : s.report_id < reports.length) (hu : s.user_id < users.length) :
    clickAction false reports users ann s = some (ann, advance s users.length) ∧
    clickAction true
      [{ id := 100, title := "r0", creation_date := "d", description := "x" },
       { id := 101, title := "r1", creation_date := "d", description := "x" }]
      [{ user_id := 0, name := "u0" }, { user_id := 1, name := "u1" }]
      [(0, []), (1, [])]
      { report_id := 0, user_id := 0, show_tutorial := false } =
      some ([(0, [100]), (1, [])],
        { report_id := 0, user_id := 1, show_tutorial := false }) ∧
    clickAction false
      [{ id := 100, title := "r0", creation_date := "d", description := "x" },
       { id := 101, title := "r1", creation_date := "d", description := "x" }]
      [{ user_id := 0, name := "u0" }, { user_id := 1, name := "u1" }]
      [(0, [100]), (1, [])]
      { report_id := 0, user_id := 1, show_tutorial := false } =
      some ([(0, [100]), (1, [])],
        { report_id := 1, user_id := 0, show_tutorial := false }) ∧
    lookupAnn [(0, [100]), (1, ([] : List Nat))] 1 = some [] := by
  refine ⟨?_, rfl, rfl, rfl⟩
  have hr' : reports[s.report_id]? = some reports[s.report_id] :=
    List.getElem?_eq_getElem hr
  have hu' : users[s.user_id]? = some users[s.user_id] :=
    List.getElem?_eq_getElem hu
  simp [clickAction, hr', hu']

/-- Witness for `click_not_relevant_frame` on a one-report, one-user
catalog. -/
theorem click_not_relevant_frame_witness :
    clickAction false
      [{ id := 7, title := "r", creation_date := "d", description := "x" }]
      [{ user_id := 3, name := "n" }]
      [(3, ([] : List Nat))]
      { report_id := 0, user_id := 0, show_tutorial := false } =
      some ([(3, ([] : List Nat))],
        advance { report_id := 0, user_id := 0, show_tutorial := false } 1) :=
  (click_not_relevant_frame
    [{ id := 7, title := "r", creation_date := "d", description := "x" }]
    [{ user_id := 3, name := "n" }]
    [(3, ([] : List Nat))]
    { report_id := 0, user_id := 0, show_tutorial := false }
    (by decide) (by decide)).1
